import Mathlib

/-!
Shallow embedding of the D3 attention-graph renderer
(components/d3_attention_graph/frontend/src/D3AttentionGraph.tsx).

Numbers are modelled as rationals, the SVG drawing surface as lists of drawn
primitives, and a JavaScript out-of-range array read (which yields undefined,
not an error) as an Option value.
-/

namespace InfoFlow

/-- An attention edge, interface AttentionPattern in the source. -/
structure AttentionPattern where
  sourceLayer : Int
  sourceToken : Int
  destLayer : Int
  destToken : Int
  weight : ℚ
  head : Int
deriving Repr, DecidableEq

/-- The input dataset, interface GraphData in the source. -/
structure GraphData where
  numLayers : Int
  numTokens : Int
  tokens : Option (List String)
  attentionPatterns : List AttentionPattern
deriving Repr, DecidableEq

/-- A laid-out node, interface Node in the source.  The label field is an
Option String: none models the JavaScript undefined produced by reading
tokens at an out-of-range index. -/
structure Node where
  layer : Int
  token : Int
  x : ℚ
  y : ℚ
  label : Option String
deriving Repr, DecidableEq

/-- A drawn circle primitive (the node markers). -/
structure Circle where
  cx : ℚ
  cy : ℚ
  r : ℚ
  fill : String
deriving Repr, DecidableEq

/-- A drawn text primitive (the node labels). -/
structure TextLabel where
  x : ℚ
  y : ℚ
  anchor : String
  fontSize : String
  content : String
deriving Repr, DecidableEq

/-- A drawn line primitive (the attention edges). -/
structure Line where
  x1 : ℚ
  y1 : ℚ
  x2 : ℚ
  y2 : ℚ
  stroke : String
  strokeWidth : ℚ
  opacity : ℚ
deriving Repr, DecidableEq

/-- The drawing surface: everything currently drawn in the SVG. -/
structure Surface where
  circles : List Circle
  texts : List TextLabel
  lines : List Line
deriving Repr, DecidableEq

/-- d3.scaleLinear with domain [d0, d1] and range [r0, r1] applied to x.
When the domain is degenerate (d1 - d0 = 0) the d3 normalizer returns the
constant 1/2, so every input lands at the midpoint of the range; otherwise
the map is the usual linear interpolation. -/
def scaleLinear (d0 d1 r0 r1 x : ℚ) : ℚ :=
  if d1 - d0 = 0 then (r0 + r1) / 2
  else r0 + (x - d0) / (d1 - d0) * (r1 - r0)

/-- JavaScript array indexing ts[t]: some element when 0 ≤ t < length,
none (undefined) otherwise. -/
def jsIndex (ts : List String) (t : Int) : Option String :=
  if h : 0 ≤ t ∧ t.toNat < ts.length then some (ts.get ⟨t.toNat, h.2⟩) else none

/-- Label resolution from the source: tokens ? tokens[t] : T-prefixed index.
A present tokens array (even an empty one) is truthy in JavaScript. -/
def nodeLabel (tokens : Option (List String)) (t : Int) : Option String :=
  match tokens with
  | none => some ("T" ++ toString t)
  | some ts => jsIndex ts t

/-- The integers 0, 1, ..., n-1 (empty when n ≤ 0), the iteration space of
a for-loop for (let i = 0; i < n; i++). -/
def intRange (n : Int) : List Int :=
  (List.range n.toNat).map (fun k : Nat => (k : Int))

/-- One node of the grid as built inside renderGraph: position from the two
linear scales over the inner rectangle (margins of 20 on every side). -/
def mkNode (d : GraphData) (w h : ℚ) (l t : Int) : Node :=
  { layer := l
    token := t
    x := scaleLinear 0 ((d.numTokens : ℚ) - 1) 0 (w - 40) (t : ℚ)
    y := scaleLinear 0 ((d.numLayers : ℚ) - 1) 0 (h - 40) (l : ℚ)
    label := nodeLabel d.tokens t }

/-- The node list built by renderGraph: outer loop over layers, inner loop
over tokens. -/
def buildNodes (d : GraphData) (w h : ℚ) : List Node :=
  (intRange d.numLayers).flatMap (fun l =>
    (intRange d.numTokens).map (fun t => mkNode d w h l t))

/-- nodes.find(n ⇒ n.layer === l && n.token === t) from the source. -/
def findNode (nodes : List Node) (l t : Int) : Option Node :=
  nodes.find? (fun n => n.layer == l && n.token == t)

/-- The text rendered for a node: a JavaScript template literal turns an
undefined label into the string undefined. -/
def labelText (l : Int) (lab : Option String) : String :=
  "L" ++ toString l ++ "-" ++ (match lab with | some s => s | none => "undefined")

/-- The marker drawn for a node: radius 5, fixed fill. -/
def nodeCircle (n : Node) : Circle :=
  { cx := n.x, cy := n.y, r := 5, fill := "#e5e7eb" }

/-- The label drawn for a node: 10px above the marker, centered, 12px font. -/
def nodeText (n : Node) : TextLabel :=
  { x := n.x, y := n.y - 10, anchor := "middle", fontSize := "12px"
    content := labelText n.layer n.label }

/-- The line drawn for one attention pattern, when both endpoints resolve
against the node list; none when either endpoint is missing. -/
def edgeLine (nodes : List Node) (p : AttentionPattern) : Option Line :=
  match findNode nodes p.sourceLayer p.sourceToken,
        findNode nodes p.destLayer p.destToken with
  | some s, some t =>
      some { x1 := s.x, y1 := s.y, x2 := t.x, y2 := t.y
             stroke := "#3B82F6", strokeWidth := p.weight * 2
             opacity := p.weight }
  | _, _ => none

/-- One full draw pass of renderGraph after the clear: node markers, then
labels, then the edges that resolve, in input order. -/
def drawScene (d : GraphData) (w h : ℚ) : Surface :=
  let nodes := buildNodes d w h
  { circles := nodes.map nodeCircle
    texts := nodes.map nodeText
    lines := d.attentionPatterns.filterMap (edgeLine nodes) }

/-- The input renderGraph reads from component state: the optional dataset,
the canvas size, and whether an SVG element is attached to the ref. -/
structure RenderInput where
  data : Option GraphData
  width : ℚ
  height : ℚ
  surfaceAttached : Bool
deriving Repr, DecidableEq

/-- renderGraph as a function from the previous surface contents and the
current input to the new surface contents: with no dataset or no attached
SVG element it returns early and leaves the surface untouched; otherwise it
clears everything previously drawn and draws the scene from scratch. -/
def renderGraph (prev : Surface) (inp : RenderInput) : Surface :=
  match inp.data with
  | none => prev
  | some d => if inp.surfaceAttached then drawScene d inp.width inp.height else prev

/-- The (layer, token) pairs of the full grid in row-major order. -/
def gridPairs (numLayers numTokens : Int) : List (Int × Int) :=
  (intRange numLayers).flatMap (fun l =>
    (intRange numTokens).map (fun t => (l, t)))

/-- A pattern endpoint (l, t) lies inside the declared grid. -/
def inGrid (d : GraphData) (l t : Int) : Prop :=
  0 ≤ l ∧ l < d.numLayers ∧ 0 ≤ t ∧ t < d.numTokens

instance (d : GraphData) (l t : Int) : Decidable (inGrid d l t) := by
  unfold inGrid; infer_instance

/-- Two attention patterns that agree on every field except head. -/
def sameButHead (p q : AttentionPattern) : Prop :=
  p.sourceLayer = q.sourceLayer ∧ p.sourceToken = q.sourceToken ∧
  p.destLayer = q.destLayer ∧ p.destToken = q.destToken ∧ p.weight = q.weight

/-- The resolving edge of the end-to-end scenario in the spec. -/
def samplePattern : AttentionPattern :=
  { sourceLayer := 1, sourceToken := 1, destLayer := 0, destToken := 0
    weight := 4/5, head := 0 }

/-- The end-to-end scenario dataset of the spec. -/
def sampleData : GraphData :=
  { numLayers := 2, numTokens := 2, tokens := some ["The", "cat"]
    attentionPatterns := [samplePattern] }

/-- The sample dataset with the edge carried on a different head. -/
def sampleDataHead7 : GraphData :=
  { numLayers := 2, numTokens := 2, tokens := some ["The", "cat"]
    attentionPatterns := [{ samplePattern with head := 7 }] }

/-- The line the sample edge draws on a 300 by 200 canvas. -/
def sampleLine : Line :=
  { x1 := 260, y1 := 160, x2 := 0, y2 := 0
    stroke := "#3B82F6", strokeWidth := 8/5, opacity := 4/5 }

/-- A dataset whose only edge references sourceLayer = numLayers, one past
the valid range. -/
def oobPattern : AttentionPattern :=
  { sourceLayer := 2, sourceToken := 0, destLayer := 0, destToken := 0
    weight := 1/2, head := 0 }

/-- A 2 by 2 grid whose only edge is out of range. -/
def oobData : GraphData :=
  { numLayers := 2, numTokens := 2, tokens := none
    attentionPatterns := [oobPattern] }

/-- A single-column grid, the degenerate token-axis scale. -/
def singleTokenData : GraphData :=
  { numLayers := 2, numTokens := 1, tokens := none, attentionPatterns := [] }

/-- A dataset whose tokens array is shorter than numTokens. -/
def shortTokensData : GraphData :=
  { numLayers := 1, numTokens := 2, tokens := some ["The"], attentionPatterns := [] }

/-- A dataset with no tokens array at all. -/
def noTokensData : GraphData :=
  { numLayers := 2, numTokens := 2, tokens := none, attentionPatterns := [] }

/-- An empty-domain configuration: numLayers is zero. -/
def degenData : GraphData :=
  { numLayers := 0, numTokens := 3, tokens := none
    attentionPatterns := [{ sourceLayer := 0, sourceToken := 0, destLayer := 0
                            destToken := 0, weight := 1, head := 0 }] }

/-- An empty drawing surface. -/
def blankSurface : Surface := ⟨[], [], []⟩

/-- A surface with leftover content from an earlier frame. -/
def stainedSurface : Surface :=
  ⟨[{ cx := 7, cy := 7, r := 5, fill := "#e5e7eb" }], [], []⟩

lemma mem_intRange {n x : Int} : x ∈ intRange n ↔ 0 ≤ x ∧ x < n := by
  simp only [intRange, List.mem_map, List.mem_range]
  constructor
  · rintro ⟨k, hk, rfl⟩
    omega
  · intro hx
    exact ⟨x.toNat, by omega, by omega⟩

lemma length_intRange (n : Int) : (intRange n).length = n.toNat := by
  rw [intRange, List.length_map, List.length_range]

lemma nodup_intRange (n : Int) : (intRange n).Nodup :=
  (List.nodup_range n.toNat).map (fun a b hab => by omega)

lemma mem_buildNodes {d : GraphData} {w h : ℚ} {n : Node} :
    n ∈ buildNodes d w h ↔
      ∃ l t, (0 ≤ l ∧ l < d.numLayers) ∧ (0 ≤ t ∧ t < d.numTokens) ∧
        n = mkNode d w h l t := by
  simp only [buildNodes, List.mem_flatMap, List.mem_map, mem_intRange]
  constructor
  · rintro ⟨l, hl, t, ht, rfl⟩
    exact ⟨l, t, hl, ht, rfl⟩
  · rintro ⟨l, t, hl, ht, rfl⟩
    exact ⟨l, hl, t, ht, rfl⟩

lemma length_buildNodes (d : GraphData) (w hgt : ℚ) :
    (buildNodes d w hgt).length = d.numLayers.toNat * d.numTokens.toNat := by
  rw [buildNodes, List.length_flatMap]
  simp [Function.comp_def, List.length_map, length_intRange, List.map_const',
    List.sum_replicate, smul_eq_mul]

lemma map_pair_buildNodes (d : GraphData) (w hgt : ℚ) :
    (buildNodes d w hgt).map (fun n => (n.layer, n.token)) =
      gridPairs d.numLayers d.numTokens := by
  simp only [buildNodes, gridPairs, List.map_flatMap, List.map_map]
  rfl

lemma nodup_gridPairs (numLayers numTokens : Int) :
    (gridPairs numLayers numTokens).Nodup :=
  List.Nodup.product (nodup_intRange numLayers) (nodup_intRange numTokens)

lemma findNode_eq_none (d : GraphData) (w hgt : ℚ) (l t : Int)
    (hout : ¬ inGrid d l t) :
    findNode (buildNodes d w hgt) l t = none := by
  rw [findNode, List.find?_eq_none]
  intro n hn
  rcases mem_buildNodes.mp hn with ⟨lIdx, tIdx, hl, ht, rfl⟩
  simp only [mkNode, Bool.and_eq_true, beq_iff_eq, not_and]
  rintro rfl rfl
  exact hout ⟨hl.1, hl.2, ht.1, ht.2⟩

lemma edgeLine_eq_none {nodes : List Node} {p : AttentionPattern}
    (hnone : findNode nodes p.sourceLayer p.sourceToken = none ∨
             findNode nodes p.destLayer p.destToken = none) :
    edgeLine nodes p = none := by
  unfold edgeLine
  split
  · rename_i hsrc hdst
    rcases hnone with hcon | hcon
    · rw [hcon] at hsrc
      cases hsrc
    · rw [hcon] at hdst
      cases hdst
  · rfl

lemma edgeLine_some_fields {nodes : List Node} {p : AttentionPattern} {ln : Line}
    (hln : edgeLine nodes p = some ln) :
    ln.strokeWidth = p.weight * 2 ∧ ln.opacity = p.weight := by
  unfold edgeLine at hln
  split at hln
  · cases hln
    exact ⟨rfl, rfl⟩
  · cases hln

lemma edgeLine_congr_head {nodes : List Node} {p q : AttentionPattern}
    (hpq : sameButHead p q) : edgeLine nodes p = edgeLine nodes q := by
  obtain ⟨h1, h2, h3, h4, h5⟩ := hpq
  rw [edgeLine, edgeLine, h1, h2, h3, h4, h5]

lemma jsIndex_eq_none {ts : List String} {t : Int}
    (hout : (ts.length : ℤ) ≤ t) : jsIndex ts t = none := by
  simp only [jsIndex]
  rw [dif_neg]
  omega

lemma jsIndex_eq_getElem? {ts : List String} {t : Int} (h0 : 0 ≤ t) :
    jsIndex ts t = ts[t.toNat]? := by
  simp only [jsIndex]
  by_cases hc : t.toNat < ts.length
  · rw [dif_pos ⟨h0, hc⟩, List.getElem?_eq_getElem hc]
    rfl
  · rw [dif_neg (fun hcon => hc hcon.2), List.getElem?_eq_none (by omega)]

/-- C1: for every dataset with numLayers ≥ 1 and numTokens ≥ 1, the node
sequence built by a render pass has exactly numLayers * numTokens elements,
its (layer, token) pairs are exactly the cartesian product of the two index
ranges in row-major order with no duplicates, and the pass rebuilds it from
scratch: the output of renderGraph does not depend on what was previously on
the surface. -/
theorem c1_grid_nodes (d : GraphData) (w hgt : ℚ)
    (hL : 1 ≤ d.numLayers) (hT : 1 ≤ d.numTokens) :
    ((buildNodes d w hgt).length : ℤ) = d.numLayers * d.numTokens ∧
    (buildNodes d w hgt).map (fun n => (n.layer, n.token)) =
      gridPairs d.numLayers d.numTokens ∧
    ((buildNodes d w hgt).map (fun n => (n.layer, n.token))).Nodup ∧
    ∀ s1 s2 : Surface,
      renderGraph s1 ⟨some d, w, hgt, true⟩ = renderGraph s2 ⟨some d, w, hgt, true⟩ := by
  refine ⟨?_, map_pair_buildNodes d w hgt, ?_, fun s1 s2 => rfl⟩
  · rw [length_buildNodes]
    push_cast
    rw [Int.toNat_of_nonneg (by omega), Int.toNat_of_nonneg (by omega)]
  · rw [map_pair_buildNodes]
    exact nodup_gridPairs d.numLayers d.numTokens

/-- Witness for C1 at the spec's end-to-end dataset on a 300 by 200 canvas. -/
theorem c1_grid_nodes_witness :
    (1 : ℤ) ≤ sampleData.numLayers ∧ (1 : ℤ) ≤ sampleData.numTokens ∧
    ((buildNodes sampleData 300 200).length : ℤ) = 2 * 2 ∧
    renderGraph blankSurface ⟨some sampleData, 300, 200, true⟩ =
      renderGraph stainedSurface ⟨some sampleData, 300, 200, true⟩ := by
  have h := c1_grid_nodes sampleData 300 200 (by decide) (by decide)
  exact ⟨by decide, by decide, h.1, h.2.2.2 blankSurface stainedSurface⟩

/-- C6: rendering twice with identical input leaves the surface exactly as
rendering once does; each pass that draws first discards everything
previously drawn, so repeated renders never accumulate primitives. -/
theorem c6_render_idempotent (s : Surface) (inp : RenderInput) :
    renderGraph (renderGraph s inp) inp = renderGraph s inp := by
  rcases inp with ⟨data, w, hgt, att⟩
  cases data with
  | none => rfl
  | some d => cases att <;> rfl

/-- C7: an empty-domain configuration (numLayers ≤ 0 or numTokens ≤ 0)
yields a render pass that draws nothing at all: the surface ends with no
circles, no texts and no lines. -/
theorem c7_degenerate_config (d : GraphData) (w hgt : ℚ) (s : Surface)
    (hdeg : d.numLayers ≤ 0 ∨ d.numTokens ≤ 0) :
    renderGraph s ⟨some d, w, hgt, true⟩ = { circles := [], texts := [], lines := [] } := by
  have hnodes : buildNodes d w hgt = [] := by
    rw [List.eq_nil_iff_forall_not_mem]
    intro n hn
    rcases mem_buildNodes.mp hn with ⟨l, t, hl, ht, -⟩
    rcases hdeg with hc | hc <;> omega
  have hlines : ∀ ps : List AttentionPattern, ps.filterMap (edgeLine []) = [] := by
    intro ps
    induction ps with
    | nil => rfl
    | cons p ps ih => simp only [List.filterMap_cons, ih]; rfl
  show drawScene d w hgt = _
  rw [drawScene]
  rw [hnodes]
  simp only [List.map_nil, hlines]

/-- Witness for C7 at a zero-layer dataset that still carries an edge. -/
theorem c7_degenerate_config_witness :
    (degenData.numLayers ≤ 0 ∨ degenData.numTokens ≤ 0) ∧
    renderGraph stainedSurface ⟨some degenData, 100, 100, true⟩ =
      { circles := [], texts := [], lines := [] } :=
  ⟨Or.inl (by decide),
   c7_degenerate_config degenData 100 100 stainedSurface (Or.inl (by decide))⟩

/-- C10: with a null dataset, or with no SVG element attached, renderGraph
returns before clearing anything: the previous surface contents survive
unchanged. -/
theorem c10_early_return (s : Surface) (w hgt : ℚ) :
    (∀ att : Bool, renderGraph s ⟨none, w, hgt, att⟩ = s) ∧
    (∀ d : GraphData, renderGraph s ⟨some d, w, hgt, false⟩ = s) :=
  ⟨fun _ => rfl, fun _ => rfl⟩

/-- C2: an edge whose source or destination pair lies outside the declared
grid resolves to no node, so no line is drawn for it; the pass still draws
every node marker, every label, and every edge of the dataset whose two
endpoints both resolve. -/
theorem c2_unresolved_edge_skipped (d : GraphData) (w hgt : ℚ)
    (p : AttentionPattern) (_hp : p ∈ d.attentionPatterns)
    (hout : ¬ inGrid d p.sourceLayer p.sourceToken ∨
            ¬ inGrid d p.destLayer p.destToken) :
    edgeLine (buildNodes d w hgt) p = none ∧
    (drawScene d w hgt).lines =
      d.attentionPatterns.filterMap (edgeLine (buildNodes d w hgt)) ∧
    (drawScene d w hgt).circles = (buildNodes d w hgt).map nodeCircle ∧
    (drawScene d w hgt).texts = (buildNodes d w hgt).map nodeText ∧
    ∀ q ∈ d.attentionPatterns, ∀ ln,
      edgeLine (buildNodes d w hgt) q = some ln →
        ln ∈ (drawScene d w hgt).lines := by
  refine ⟨?_, rfl, rfl, rfl, ?_⟩
  · apply edgeLine_eq_none
    rcases hout with hsrc | hdst
    · exact Or.inl (findNode_eq_none d w hgt _ _ hsrc)
    · exact Or.inr (findNode_eq_none d w hgt _ _ hdst)
  · intro q hq ln hln
    exact List.mem_filterMap.mpr ⟨q, hq, hln⟩

/-- Witness for C2: the spec's edge-skip example, sourceLayer = numLayers. -/
theorem c2_unresolved_edge_skipped_witness :
    oobPattern ∈ oobData.attentionPatterns ∧
    ¬ inGrid oobData oobPattern.sourceLayer oobPattern.sourceToken ∧
    edgeLine (buildNodes oobData 300 200) oobPattern = none := by
  have hp : oobPattern ∈ oobData.attentionPatterns := List.Mem.head _
  have hout : ¬ inGrid oobData oobPattern.sourceLayer oobPattern.sourceToken := by
    decide
  exact ⟨hp, hout,
    (c2_unresolved_edge_skipped oobData 300 200 oobPattern hp (Or.inl hout)).1⟩

/-- C3: every drawn edge line carries stroke width weight * 2 and opacity
weight exactly, with no clamping; in particular a weight of one half gives
stroke width 1 and opacity one half. -/
theorem c3_edge_visual_encoding (d : GraphData) (w hgt : ℚ)
    (p : AttentionPattern) (ln : Line)
    (hln : edgeLine (buildNodes d w hgt) p = some ln) :
    ln.strokeWidth = p.weight * 2 ∧ ln.opacity = p.weight ∧
    (p.weight = 1/2 → ln.strokeWidth = 1 ∧ ln.opacity = 1/2) := by
  obtain ⟨h1, h2⟩ := edgeLine_some_fields hln
  refine ⟨h1, h2, fun hw => ⟨?_, ?_⟩⟩
  · rw [h1, hw]
    norm_num
  · rw [h2, hw]

/-- Witness for C3 at the spec's sample edge of weight 4/5. -/
theorem c3_edge_visual_encoding_witness :
    edgeLine (buildNodes sampleData 300 200) samplePattern = some sampleLine ∧
    sampleLine.strokeWidth = samplePattern.weight * 2 ∧
    sampleLine.opacity = samplePattern.weight := by
  have hred : edgeLine (buildNodes sampleData 300 200) samplePattern =
      some { x1 := (mkNode sampleData 300 200 1 1).x
             y1 := (mkNode sampleData 300 200 1 1).y
             x2 := (mkNode sampleData 300 200 0 0).x
             y2 := (mkNode sampleData 300 200 0 0).y
             stroke := "#3B82F6"
             strokeWidth := samplePattern.weight * 2
             opacity := samplePattern.weight } := rfl
  have hln : edgeLine (buildNodes sampleData 300 200) samplePattern =
      some sampleLine := by
    rw [hred]
    norm_num [mkNode, scaleLinear, sampleData, samplePattern, sampleLine]
  have h := c3_edge_visual_encoding sampleData 300 200 samplePattern sampleLine hln
  exact ⟨hln, h.1, h.2.1⟩

/-- C4 counterexample: on a two-layer one-token grid with width 240, the
nodes sit at x = 100, the midpoint of the inner range, not at 0 as the
claim states. -/
theorem c4_counterexample_midpoint :
    ¬ (∀ n ∈ buildNodes singleTokenData 240 140, n.x = 0) := by
  intro hall
  have hx := hall (mkNode singleTokenData 240 140 0 0) (List.Mem.head _)
  norm_num [mkNode, scaleLinear, singleTokenData] at hx

/-- C4 amended: a degenerate axis causes no division (the d3 normalizer
returns a constant) but maps every node to the midpoint of the range, not
its start: numTokens = 1 puts every x at (width - 40) / 2, and numLayers = 1
puts every y at (height - 40) / 2. -/
theorem c4_amended_degenerate_scale (d : GraphData) (w hgt : ℚ) :
    (d.numTokens = 1 → ∀ n ∈ buildNodes d w hgt, n.x = (w - 40) / 2) ∧
    (d.numLayers = 1 → ∀ n ∈ buildNodes d w hgt, n.y = (hgt - 40) / 2) := by
  constructor
  · intro hT n hn
    rcases mem_buildNodes.mp hn with ⟨l, t, hl, ht, rfl⟩
    simp [mkNode, scaleLinear, hT]
  · intro hL n hn
    rcases mem_buildNodes.mp hn with ⟨l, t, hl, ht, rfl⟩
    simp [mkNode, scaleLinear, hL]

/-- Witness for the amended C4 at the single-token dataset. -/
theorem c4_amended_degenerate_scale_witness :
    singleTokenData.numTokens = 1 ∧
    (mkNode singleTokenData 240 140 0 0).x = (240 - 40) / 2 := by
  have hmem : mkNode singleTokenData 240 140 0 0 ∈
      buildNodes singleTokenData 240 140 := List.Mem.head _
  exact ⟨rfl,
    (c4_amended_degenerate_scale singleTokenData 240 140).1 rfl _ hmem⟩

/-- C5 counterexample: with tokens = the single string The but numTokens = 2,
the render completes and draws both nodes; the out-of-range access yields
undefined rather than an error, and the second label renders as
L0-undefined. -/
theorem c5_counterexample_no_failure :
    (renderGraph blankSurface ⟨some shortTokensData, 300, 200, true⟩).circles.length
      = 2 ∧
    (renderGraph blankSurface ⟨some shortTokensData, 300, 200, true⟩).texts.map
      (fun tl => tl.content) = ["L0-The", "L0-undefined"] := by
  constructor
  · rfl
  · rfl

/-- C5 amended: when tokens is present but shorter than numTokens, the
out-of-range read yields undefined instead of failing: the pass still draws
the full grid of markers and labels, the affected nodes carry no label
string, and their text renders the word undefined. -/
theorem c5_amended_undefined_labels (d : GraphData) (w hgt : ℚ)
    (ts : List String) (hts : d.tokens = some ts)
    (_hshort : (ts.length : ℤ) < d.numTokens) :
    (drawScene d w hgt).circles.length = d.numLayers.toNat * d.numTokens.toNat ∧
    (drawScene d w hgt).texts.length = d.numLayers.toNat * d.numTokens.toNat ∧
    ∀ n ∈ buildNodes d w hgt, (ts.length : ℤ) ≤ n.token →
      n.label = none ∧
      (nodeText n).content = "L" ++ toString n.layer ++ "-" ++ "undefined" := by
  refine ⟨?_, ?_, ?_⟩
  · show ((buildNodes d w hgt).map nodeCircle).length = _
    rw [List.length_map, length_buildNodes]
  · show ((buildNodes d w hgt).map nodeText).length = _
    rw [List.length_map, length_buildNodes]
  · intro n hn htok
    rcases mem_buildNodes.mp hn with ⟨l, t, hl, ht, rfl⟩
    have hlab : (mkNode d w hgt l t).label = none := by
      simp only [mkNode, nodeLabel, hts]
      exact jsIndex_eq_none htok
    exact ⟨hlab, by simp only [nodeText, labelText, hlab]⟩

/-- Witness for the amended C5 at the short-tokens dataset. -/
theorem c5_amended_undefined_labels_witness :
    shortTokensData.tokens = some ["The"] ∧
    ((["The"] : List String).length : ℤ) < shortTokensData.numTokens ∧
    (drawScene shortTokensData 300 200).circles.length = 2 ∧
    (mkNode shortTokensData 300 200 0 1).label = none := by
  have h := c5_amended_undefined_labels shortTokensData 300 200 ["The"] rfl
    (by decide)
  have hmem : mkNode shortTokensData 300 200 0 1 ∈
      buildNodes shortTokensData 300 200 := List.Mem.tail _ (List.Mem.head _)
  exact ⟨rfl, by decide, h.1, (h.2.2 _ hmem (by decide)).1⟩

/-- C8: the drawn text of every node is L-layer-dash-label; with no tokens
array the label of token t is the synthesized string T followed by t, and
with a tokens array any in-range index t takes its label from the array. -/
theorem c8_label_resolution (d : GraphData) (w hgt : ℚ) :
    (drawScene d w hgt).texts.map (fun tl => tl.content) =
      (buildNodes d w hgt).map (fun n => labelText n.layer n.label) ∧
    (d.tokens = none → ∀ n ∈ buildNodes d w hgt,
      n.label = some ("T" ++ toString n.token) ∧
      (nodeText n).content =
        "L" ++ toString n.layer ++ "-" ++ ("T" ++ toString n.token)) ∧
    (∀ ts, d.tokens = some ts → ∀ n ∈ buildNodes d w hgt,
      ∀ s, ts[n.token.toNat]? = some s → n.label = some s) := by
  refine ⟨?_, ?_, ?_⟩
  · show ((buildNodes d w hgt).map nodeText).map _ = _
    rw [List.map_map]
    rfl
  · intro htok n hn
    rcases mem_buildNodes.mp hn with ⟨l, t, hl, ht, rfl⟩
    constructor
    · simp only [mkNode, nodeLabel, htok]
    · simp only [nodeText, labelText, mkNode, nodeLabel, htok]
  · intro ts hts n hn s hs
    rcases mem_buildNodes.mp hn with ⟨l, t, hl, ht, rfl⟩
    show nodeLabel d.tokens t = some s
    rw [hts]
    show jsIndex ts t = some s
    rw [jsIndex_eq_getElem? ht.1]
    exact hs

/-- Witness for C8 at a dataset with no tokens array. -/
theorem c8_label_resolution_witness :
    noTokensData.tokens = none ∧
    (mkNode noTokensData 300 200 1 0).label = some ("T" ++ toString (0 : ℤ)) := by
  have hmem : mkNode noTokensData 300 200 1 0 ∈ buildNodes noTokensData 300 200 :=
    List.Mem.tail _ (List.Mem.tail _ (List.Mem.head _))
  exact ⟨rfl, ((c8_label_resolution noTokensData 300 200).2.1 rfl _ hmem).1⟩

/-- C9: two datasets identical except for the head values of their edges
render to exactly the same surface: head never alters any node position,
label, or edge attribute. -/
theorem c9_head_not_rendered (d1 d2 : GraphData) (w hgt : ℚ)
    (hL : d1.numLayers = d2.numLayers) (hT : d1.numTokens = d2.numTokens)
    (htok : d1.tokens = d2.tokens)
    (hpat : List.Forall₂ sameButHead d1.attentionPatterns d2.attentionPatterns) :
    drawScene d1 w hgt = drawScene d2 w hgt ∧
    ∀ (s : Surface) (att : Bool),
      renderGraph s ⟨some d1, w, hgt, att⟩ = renderGraph s ⟨some d2, w, hgt, att⟩ := by
  have hnodes : buildNodes d1 w hgt = buildNodes d2 w hgt := by
    unfold buildNodes mkNode
    rw [hL, hT, htok]
  have hlines : ∀ (nodes : List Node) {ps qs : List AttentionPattern},
      List.Forall₂ sameButHead ps qs →
      ps.filterMap (edgeLine nodes) = qs.filterMap (edgeLine nodes) := by
    intro nodes ps qs hf
    induction hf with
    | nil => rfl
    | cons h1 h2 ih => simp only [List.filterMap_cons, edgeLine_congr_head h1, ih]
  have hscene : drawScene d1 w hgt = drawScene d2 w hgt := by
    show Surface.mk ((buildNodes d1 w hgt).map nodeCircle)
        ((buildNodes d1 w hgt).map nodeText)
        (d1.attentionPatterns.filterMap (edgeLine (buildNodes d1 w hgt)))
      = Surface.mk ((buildNodes d2 w hgt).map nodeCircle)
        ((buildNodes d2 w hgt).map nodeText)
        (d2.attentionPatterns.filterMap (edgeLine (buildNodes d2 w hgt)))
    rw [hnodes, hlines (buildNodes d2 w hgt) hpat]
  refine ⟨hscene, fun s att => ?_⟩
  cases att
  · rfl
  · show drawScene d1 w hgt = drawScene d2 w hgt
    exact hscene

/-- Witness for C9: the sample dataset against its copy on head 7. -/
theorem c9_head_not_rendered_witness :
    ({ samplePattern with head := 7 } : AttentionPattern).head ≠ samplePattern.head ∧
    drawScene sampleData 300 200 = drawScene sampleDataHead7 300 200 := by
  have hf : List.Forall₂ sameButHead sampleData.attentionPatterns
      sampleDataHead7.attentionPatterns :=
    List.Forall₂.cons ⟨rfl, rfl, rfl, rfl, rfl⟩ List.Forall₂.nil
  exact ⟨by decide,
    (c9_head_not_rendered sampleData sampleDataHead7 300 200 rfl rfl rfl hf).1⟩

end InfoFlow
